import Mathlib

/-!
Verification of the hi-messenger chat backend (final server iteration:
`src/main.py` together with `src/models.py`).

The Python handlers are embedded shallowly as pure Lean functions:
  * the SQLAlchemy store is a `DB` value (lists of `User` and `Message` rows,
    with exactly the columns `models.py` maps);
  * each REST handler is a function from the request data and the store to a
    typed response, returning the updated store where the handler commits;
  * Python exception flow is made explicit with `Except PyErr`: each handler
    body is an `_inner` function that may return `.error`, and the literal
    `try/except` clauses of the source become a wrapper match on that result;
  * the third-party primitives (Fernet, bcrypt, PyJWT HS256) are modelled
    symbolically, faithful to spec section 4.5 and 4.4: randomness (the
    Fernet IV, the bcrypt salt) is threaded as an explicit parameter, key
    binding is modelled by carrying the key in the token and comparing it on
    the decrypt/verify side, and wall-clock time is an explicit `now`
    argument.

A name-shadowing bug in the source shapes several embeddings below:
main.py 9 binds `datetime` to the module, but main.py 128
(`from datetime import datetime, timedelta`) rebinds the module-global
`datetime` to the class.  From then on every occurrence of
`datetime.datetime.utcnow()` / `datetime.datetime.now()` raises
`AttributeError` at runtime (the class has no `datetime` attribute).  The
reachable such sites are main.py 300 (login), 359-360 (WebSocket no-DB
frame), 386 (WebSocket Message insert) and 532 (profile update); the ones
in `register_user` (main.py 239-240) are unreachable because the handler
already raised at main.py 222.  Only `create_access_token` (main.py 151)
uses the post-shadowing form `datetime.utcnow()`, which works, as do the
Fernet internals (`time.time()`).  Each affected handler is embedded with
an `AttributeError` at the corresponding point.
-/

namespace HiMessenger

/-! ### Python string helpers (`str.strip`, `str.lower`, `dict.get` defaults) -/

/-- Whitespace characters removed by Python `str.strip()` (ASCII range). -/
def isPySpace (c : Char) : Bool :=
  c == ' ' || c == '\t' || c == '\n' || c == '\r' || c == '\x0b' || c == '\x0c'

/-- Model of Python `str.strip()`: drop whitespace from both ends. -/
def pyStrip (s : String) : String :=
  ⟨((s.data.dropWhile isPySpace).reverse.dropWhile isPySpace).reverse⟩

/-- Model of Python `str.lower()`. -/
def pyLower (s : String) : String :=
  ⟨s.data.map Char.toLower⟩

/-- Model of `data.get(field, "")` on an optional JSON body field. -/
def orEmpty (o : Option String) : String :=
  match o with
  | some s => s
  | none => ""

/-! ### Field Encryption Service (`encrypt_data` / `decrypt_data`, main.py 34-42)

The source delegates to `cryptography.fernet.Fernet` initialised with one
process-wide key.  The Fernet token format (spec section 4.5: version byte
0x80, creation timestamp, random 128-bit IV, AES-CBC ciphertext, HMAC over
the whole token keyed by the process key) is modelled symbolically: the
ciphertext bytes are abstracted as the carried `body`, and `keyTag` stands
for the HMAC key binding that makes decryption under any other key fail. -/

structure FernetToken where
  version : Nat
  timestamp : Nat
  iv : Nat
  body : String
  keyTag : Nat
deriving DecidableEq

/-- `encrypt_data` (main.py 34-36): one Fernet encryption under the process
key, at clock `now`, drawing the random IV `iv`. -/
def encrypt_data (key now iv : Nat) (data : String) : FernetToken :=
  { version := 128, timestamp := now, iv := iv, body := data, keyTag := key }

/-- `decrypt_data` (main.py 40-42): Fernet decryption; fails (the source
raises, callers catch) whenever the token was not produced under `key` or is
malformed. -/
def decrypt_data (key : Nat) (t : FernetToken) : Option String :=
  if t.keyTag = key ∧ t.version = 128 then some t.body else none

/-! ### Password hashing (`get_password_hash` / `verify_password`, main.py 141-146)

bcrypt is modelled symbolically: a hash is the pair of its random salt and an
injective digest of the password (carried as the password itself, as usual in
a symbolic model); verification re-checks the password against the digest. -/

structure BcryptHash where
  salt : Nat
  digest : String
deriving DecidableEq

/-- `get_password_hash` (main.py 145-146), with bcrypt's random salt explicit. -/
def get_password_hash (salt : Nat) (password : String) : BcryptHash :=
  { salt := salt, digest := password }

/-- `verify_password` (main.py 141-142). -/
def verify_password (plain : String) (h : BcryptHash) : Bool :=
  h.digest == plain

/-! ### JWT (`create_access_token` / `verify_token`, main.py 149-169)

HS256 signing is modelled symbolically: the signature of a payload under a
secret is the pair `(secret, payload)` (an injective keyed MAC), and
verification recomputes and compares it, then checks expiry the way PyJWT
does (`exp` must not lie in the past). -/

structure TokenPayload where
  sub : String
  username : String
  exp : Nat
  type : String
deriving DecidableEq

structure Jwt where
  payload : TokenPayload
  sig : Nat × TokenPayload
deriving DecidableEq

def ACCESS_TOKEN_EXPIRE_DAYS : Nat := 30

/-- Seconds in a day, to express `timedelta(days=...)` over `Nat` seconds. -/
def SECONDS_PER_DAY : Nat := 86400

/-- `create_access_token` (main.py 149-161).  `secret` is the module-level
`SECRET_KEY` read from the environment, `now` the UTC clock in seconds. -/
def create_access_token (secret now : Nat) (user_id : Nat) (username : String) : Jwt :=
  let expire := now + ACCESS_TOKEN_EXPIRE_DAYS * SECONDS_PER_DAY
  { payload := { sub := toString user_id, username := username, exp := expire, type := "access" },
    sig := (secret, { sub := toString user_id, username := username, exp := expire, type := "access" }) }

/-- `verify_token` (main.py 164-169): decode under `secret`; on any signature
or expiry failure the source catches `PyJWTError` and returns `None`. -/
def verify_token (secret now : Nat) (t : Jwt) : Option TokenPayload :=
  if t.sig = (secret, t.payload) ∧ now ≤ t.payload.exp then some t.payload else none

/-! ### Data model (`models.py`)

`models.User` maps exactly the columns `id`, `username`, `password_hash`,
`created_at`, `last_seen` — it declares NO `email` column, although
`main.py` refers to one in several handlers.  `models.Message` maps `id`,
`text`, `timestamp`, `sender_id`; in the final server iteration the stored
`text` is always meant to be a Fernet token, so the column is embedded at
that type (a row whose `keyTag` differs from the process key models a row
that the process key cannot decrypt). -/

structure User where
  id : Nat
  username : String
  password_hash : BcryptHash
  created_at : Nat
  last_seen : Nat
deriving DecidableEq

structure Message where
  id : Nat
  text : FernetToken
  timestamp : Nat
  sender_id : Nat
deriving DecidableEq

/-- The relational store: the `users` and `messages` tables. -/
structure DB where
  users : List User
  messages : List Message
deriving DecidableEq

/-! ### Python exception flow -/

/-- The exceptions the embedded handlers can raise: FastAPI `HTTPException`
with a status code and detail, or `AttributeError` (raised when `main.py`
touches the `email` attribute that `models.User` does not declare). -/
inductive PyErr where
  | httpError (status : Nat) (detail : String)
  | attributeError
deriving DecidableEq

/-! ### POST /api/auth/register (`register_user`, main.py 190-267) -/

structure RegisterBody where
  username : Option String
  password : Option String
  email : Option String
deriving DecidableEq

inductive RegisterResult where
  | created (user_id : Nat) (username : String) (access_token : Jwt) (token_type : String)
  | failure (status : Nat) (detail : String)
deriving DecidableEq

/-- Body of the `try` block of `register_user` (main.py 192-259).  After the
three validation checks the source runs
`select(User).filter((User.username == username) | (User.email == email))`;
evaluating `User.email` on the mapped class raises `AttributeError` because
`models.User` declares no `email` column, so control never reaches the
duplicate check, the insert, or the 201 response. -/
def register_inner (_db : DB) (body : RegisterBody) : Except PyErr (RegisterResult × DB) :=
  if pyStrip (orEmpty body.username) = "" ∨ pyStrip (orEmpty body.password) = "" then
    .error (.httpError 400 "Username and password are required")
  else if (pyStrip (orEmpty body.username)).length < 3 then
    .error (.httpError 400 "Username must be at least 3 characters long")
  else if (pyStrip (orEmpty body.password)).length < 6 then
    .error (.httpError 400 "Password must be at least 6 characters long")
  else
    .error .attributeError

/-- `register_user` (main.py 190-267): the inner block wrapped by
`except HTTPException: raise` and `except Exception: 500`. -/
def register_user (db : DB) (body : RegisterBody) : RegisterResult × DB :=
  match register_inner db body with
  | .ok r => r
  | .error (.httpError s d) => (.failure s d, db)
  | .error .attributeError => (.failure 500 "Internal server error", db)

/-! ### POST /api/auth/login (`login_user`, main.py 271-320) -/

structure LoginBody where
  username : Option String
  password : Option String
deriving DecidableEq

inductive LoginResult where
  | ok (user_id : Nat) (username : String) (access_token : Jwt) (token_type : String)
  | failure (status : Nat) (detail : String)
deriving DecidableEq

/-- Body of the `try` block of `login_user` (main.py 273-312).  When the
credentials check out, the source runs
`user.last_seen = datetime.datetime.utcnow()` (main.py 300); `datetime` is
the class there (rebound by main.py 128), so the right-hand side raises
`AttributeError` before anything is assigned or committed: the token
issuance and 200 response below it (main.py 304-312) are unreachable, which
is why they do not appear in this embedding. -/
def login_inner (db : DB) (body : LoginBody) : Except PyErr (LoginResult × DB) :=
  if pyStrip (orEmpty body.username) = "" ∨ pyStrip (orEmpty body.password) = "" then
    .error (.httpError 400 "Username and password are required")
  else
    match db.users.find? (fun u => u.username == pyStrip (orEmpty body.username)) with
    | none => .error (.httpError 401 "Invalid credentials")
    | some u =>
      if verify_password (pyStrip (orEmpty body.password)) u.password_hash then
        .error .attributeError
      else
        .error (.httpError 401 "Invalid credentials")

/-- `login_user` (main.py 271-320): the inner block wrapped by
`except HTTPException: raise` and `except Exception: 500`. -/
def login_user (db : DB) (body : LoginBody) : LoginResult × DB :=
  match login_inner db body with
  | .ok r => r
  | .error (.httpError s d) => (.failure s d, db)
  | .error .attributeError => (.failure 500 "Internal server error", db)

/-! ### GET /api/user/(user_id) (`get_user_info`, main.py 463-496) -/

inductive UserInfoResult where
  | ok (id : Nat) (username : String) (email : Option String) (created_at last_seen : Nat)
  | offline (id : Nat) (username : String) (statusStr : String)
  | failure (status : Nat) (detail : String)
deriving DecidableEq

/-- Body of the `try` block of `get_user_info` (main.py 468-493).  When the
row exists the source evaluates `user.email` (main.py 479); the loaded
`models.User` instance has no such attribute, so `AttributeError` is raised
before any field of the 200 response is built.  When the row does not exist
the source raises `HTTPException(404)` — from inside the same `try`. -/
def get_user_info_inner (db : DB) (target : Nat) : Except PyErr UserInfoResult :=
  match db.users.find? (fun u => u.id == target) with
  | some _ => .error .attributeError
  | none => .error (.httpError 404 "User not found")

/-- `get_user_info` (main.py 463-496).  The wrapper has only
`except Exception: 500` — no `except HTTPException: raise` — so even the
`HTTPException(404)` raised inside the `try` is converted to a 500. -/
def get_user_info (dbAvailable : Bool) (db : DB) (target : Nat) : UserInfoResult :=
  if dbAvailable = false then
    .offline target ("User_" ++ toString target) "offline"
  else
    match get_user_info_inner db target with
    | .ok r => r
    | .error _ => .failure 500 "Internal server error"

/-! ### POST /api/user/profile (`update_user_profile`, main.py 500-547) -/

structure ProfileBody where
  username : Option String
  email : Option String
deriving DecidableEq

inductive ProfileResult where
  | ok (username : String) (access_token : Jwt)
  | failure (status : Nat) (detail : String)
deriving DecidableEq

/-- Body of the `try` block of `update_user_profile` (main.py 502-544).
On the path where the caller's row is found, the source assigns
`user.username = new_username` (main.py 529) in memory, then
`if email: user.email = encrypt_data(email)` (main.py 530-531): the
ciphertext is computed (the bound `_email_attr` records that computation),
but `models.User` maps no `email` column, so the assignment only creates an
unmapped in-memory attribute.  Next, `user.last_seen =
datetime.datetime.utcnow()` (main.py 532) raises `AttributeError` — the
name `datetime` is the class, rebound by main.py 128 — before `commit`
(main.py 533) ever runs, so none of the in-memory changes reach the store
and the token issuance and success response (main.py 536-542) are
unreachable. -/
def update_profile_inner (key now iv : Nat) (db : DB) (current_id : Nat)
    (body : ProfileBody) : Except PyErr (ProfileResult × DB) :=
  if pyStrip (orEmpty body.username) = "" then
    .error (.httpError 400 "Username is required")
  else if (pyStrip (orEmpty body.username)).length < 3 then
    .error (.httpError 400 "Username must be at least 3 characters long")
  else
    match db.users.find? (fun u => u.username == pyStrip (orEmpty body.username)
                                     && u.id != current_id) with
    | some _ => .error (.httpError 400 "Username already taken")
    | none =>
      match db.users.find? (fun u => u.id == current_id) with
      | some _ =>
        let _email_attr :=
          if pyLower (pyStrip (orEmpty body.email)) = "" then none
          else some (encrypt_data key now iv (pyLower (pyStrip (orEmpty body.email))))
        .error .attributeError
      | none => .error (.httpError 404 "User not found")

/-- `update_user_profile` (main.py 500-547).  As in `get_user_info`, the
wrapper is only `except Exception: 500`, so the 400 ("Username is required",
"Username must be at least 3 characters long", "Username already taken") and
404 ("User not found") `HTTPException`s raised inside the `try`, and the
`AttributeError` from main.py 532, all surface as 500. -/
def update_user_profile (key now iv : Nat) (db : DB) (current_id : Nat)
    (body : ProfileBody) : ProfileResult × DB :=
  match update_profile_inner key now iv db current_id body with
  | .ok r => r
  | .error _ => (.failure 500 "Internal server error", db)

/-! ### GET /api/messages (`get_messages`, main.py 422-459) -/

/-- The placeholder the source substitutes when a stored message text fails
to decrypt (main.py 445). -/
def PLACEHOLDER_MSG : String := "Не удалось расшифровать сообщение"

/-- The SQL inner join
`select(Message, User.username).join(User, Message.sender_id == User.id)`
(main.py 432-434): every message paired with its sender username; messages
whose `sender_id` matches no user are dropped by the inner join. -/
def joined_rows (db : DB) : List (Message × String) :=
  db.messages.filterMap
    (fun m => (db.users.find? (fun u => u.id == m.sender_id)).map (fun u => (m, u.username)))

/-- The `order_by(Message.timestamp.desc())` ordering relation. -/
def tsDesc (a b : Message × String) : Prop :=
  b.1.timestamp ≤ a.1.timestamp

instance : DecidableRel tsDesc :=
  fun a b => Nat.decLe b.1.timestamp a.1.timestamp

instance : IsTotal (Message × String) tsDesc :=
  ⟨by intro a b; unfold tsDesc; exact Nat.le_total _ _⟩

instance : IsTrans (Message × String) tsDesc :=
  ⟨fun _ _ _ h1 h2 => Nat.le_trans h2 h1⟩

/-- One element of the JSON `messages` list (main.py 447-453). -/
structure MessageItem where
  id : Nat
  text : String
  fromId : Nat
  from_username : String
  timestamp : Nat
deriving DecidableEq

/-- One row of the response (main.py 440-453): decrypt the stored text,
substituting `PLACEHOLDER_MSG` when decryption raises. -/
def message_item_of (key : Nat) (p : Message × String) : MessageItem :=
  { id := p.1.id,
    text := (decrypt_data key p.1.text).getD PLACEHOLDER_MSG,
    fromId := p.1.sender_id,
    from_username := p.2,
    timestamp := p.1.timestamp }

/-- `get_messages` (main.py 422-459): empty list when `DB_AVAILABLE` is
false; the join ordered newest-first, truncated to `limit`, decrypted, and
reversed before returning; `dbFail` models any exception out of the database
work, which the handler catches by returning the empty list (main.py
457-459). -/
def get_messages (dbAvailable dbFail : Bool) (key : Nat) (db : DB) (limit : Nat) :
    List MessageItem :=
  if dbAvailable = false then []
  else if dbFail then []
  else
    (((List.insertionSort tsDesc (joined_rows db)).take limit).map (message_item_of key)).reverse

/-! ### WebSocket /ws message loop (`websocket_endpoint`, main.py 330-418) -/

/-- The `message_id` field of a broadcast "message" frame as the source
writes it: an integer database row id (main.py 399) or the fractional Unix
timestamp `datetime.now().timestamp()` (main.py 360), a float, modelled as
a rational.  In the final iteration neither variant is ever completed: both
frame constructions abort on the shadowed `datetime` first (see
`ws_handle_frame`). -/
inductive MsgId where
  | rowId (n : Nat)
  | clockTs (t : Rat)
deriving DecidableEq

/-- The outbound WebSocket frame shapes appearing in the source (main.py
353-361, 376-379, 393-400, 406-409, 413-417).  The "message" shape is what
main.py 353-361 and 393-400 attempt to build; in the final iteration its
`timestamp` entry raises before the frame is completed, so the loop only
ever sends `error` frames (the `user_disconnected` frame, main.py 413-417,
is sent outside the loop modelled here). -/
inductive OutFrame where
  | message (fromId : Nat) (from_username : String) (text : String)
      (timestamp : Nat) (message_id : MsgId)
  | error (message : String)
  | user_disconnected (user_id : Nat) (username : String)
deriving DecidableEq

/-- Effect of processing one inbound frame: the store afterwards, the frames
sent (tagged with the receiving connection's user id), and whether an
uncaught exception escaped the receive loop, killing the connection's
handler (no further frame is read and `manager.disconnect` never runs). -/
structure WsStep where
  db : DB
  sends : List (Nat × OutFrame)
  crashed : Bool
deriving DecidableEq

/-- One iteration of the `while True` receive loop of `websocket_endpoint`
(main.py 344-409), for an already-authenticated connection of `user_id`.
`textField` is `message_data.get("text", "")`; `now` is the clock and `iv`
the Fernet IV drawn by `encrypt_data` (main.py 350, which runs fine), and
`dbFail` models a database error at or before the sender lookup inside the
inner `try` (main.py 366-409).  Branches:
  * `DB_AVAILABLE` false: the emulation frame (main.py 354-361) evaluates
    `datetime.datetime.utcnow()` at its `timestamp` entry — `AttributeError`
    on the shadowed name, raised OUTSIDE the inner `try`; the only outer
    handler is `except WebSocketDisconnect` (main.py 411), so the exception
    escapes: nothing is sent or stored and the handler dies (`crashed`).
  * database work fails: `except Exception` (main.py 404-409) sends
    "Error saving message" to the sender only.
  * sender row missing: "User not found" to the sender only (main.py
    376-380).
  * sender row found: `Message(..., timestamp=datetime.datetime.utcnow())`
    (main.py 386) raises `AttributeError` during argument evaluation, inside
    the inner `try` — caught at main.py 404: "Error saving message" to the
    sender only; nothing is ever persisted or broadcast. -/
def ws_handle_frame (dbAvailable : Bool) (key now iv : Nat) (db : DB) (user_id : Nat)
    (textField : Option String) (dbFail : Bool) : WsStep :=
  let text := orEmpty textField
  let _encrypted := encrypt_data key now iv text
  if dbAvailable = false then
    { db := db, sends := [], crashed := true }
  else if dbFail then
    { db := db, sends := [(user_id, OutFrame.error "Error saving message")], crashed := false }
  else
    match db.users.find? (fun u => u.id == user_id) with
    | none =>
      { db := db, sends := [(user_id, OutFrame.error "User not found")], crashed := false }
    | some _ =>
      { db := db, sends := [(user_id, OutFrame.error "Error saving message")], crashed := false }

/-! ### Fixtures for concrete witnesses -/

/-- A registered user used by concrete witnesses. -/
def wAlice : User := { id := 1, username := "alice", password_hash := ⟨0, "pw"⟩, created_at := 0, last_seen := 5 }

/-- A second registered user used by concrete witnesses. -/
def wBob : User := { id := 2, username := "bob", password_hash := ⟨0, "pw2"⟩, created_at := 0, last_seen := 5 }

/-- A store with two users and four messages: three decryptable under key 0
(one of them from an unknown sender, dropped by the history join) and one
written under another key (undecryptable). -/
def wdb : DB :=
  { users := [wAlice, wBob],
    messages := [ { id := 1, text := encrypt_data 0 0 0 "one", timestamp := 10, sender_id := 1 },
                  { id := 2, text := encrypt_data 99 0 0 "bad", timestamp := 20, sender_id := 2 },
                  { id := 3, text := encrypt_data 0 0 0 "three", timestamp := 30, sender_id := 1 },
                  { id := 4, text := encrypt_data 0 0 0 "orphan", timestamp := 40, sender_id := 77 } ] }

/-- A one-user store used by the C6 witness. -/
def dbC6 : DB := { users := [wAlice], messages := [] }

end HiMessenger

namespace HiMessenger

/-! ## Claims -/

/-- Claim C1 (code bug): the spec promises 201 with user data and token for
every validation-passing registration, and 400 with a rule-specific message
for every validation failure.  The validation half holds, but the success
half is broken in the code: `models.User` declares no `email` column while
`register_user` builds the filter `User.email == email`, so every request
that passes validation raises `AttributeError` and is answered 500, never
201.  Each conjunct evaluates the embedded endpoint at one concrete
request. -/
theorem c1_register_outcomes :
    register_user ⟨[], []⟩ ⟨some "alice", some "secret1", some "a@b.c"⟩
      = (.failure 500 "Internal server error", ⟨[], []⟩)
    ∧ register_user ⟨[], []⟩ ⟨some "ab", some "secret1", none⟩
      = (.failure 400 "Username must be at least 3 characters long", ⟨[], []⟩)
    ∧ register_user ⟨[], []⟩ ⟨some "alice", some "12345", none⟩
      = (.failure 400 "Password must be at least 6 characters long", ⟨[], []⟩)
    ∧ register_user ⟨[], []⟩ ⟨none, some "secret1", none⟩
      = (.failure 400 "Username and password are required", ⟨[], []⟩) :=
  ⟨rfl, rfl, rfl, rfl⟩

/-- Claim C2 (code bug): the spec says the persisted User entity has an
optional encrypted email field.  `models.User` declares no email column at
all, and because `register_user` trips over that very column, registration
never inserts any row: for every store and every request body the store
after `register_user` equals the store before. -/
theorem c2_register_never_persists (db : DB) (body : RegisterBody) :
    (register_user db body).2 = db := by
  unfold register_user register_inner
  split
  · rename_i r hr
    exfalso
    repeat' split at hr
    all_goals exact Except.noConfusion hr
  · rfl
  · rfl

/-- Claim C3 (code bug): the spec promises the user data for an existing id
and 404 for a missing one.  In the code the existing-id branch evaluates
`user.email`, which raises `AttributeError` (no such mapped attribute), and
the missing-id branch raises `HTTPException(404)` inside the same `try`
whose only handler is `except Exception: 500`; both branches therefore
answer 500. -/
theorem c3_get_user_info_always_500 :
    get_user_info true ⟨[⟨1, "alice", ⟨0, "pw"⟩, 2, 3⟩], []⟩ 1
      = .failure 500 "Internal server error"
    ∧ get_user_info true ⟨[⟨1, "alice", ⟨0, "pw"⟩, 2, 3⟩], []⟩ 9
      = .failure 500 "Internal server error" :=
  ⟨rfl, rfl⟩

/-- Claim C4 (code bug): the spec promises 400 when the new username is
taken by a different user, 404 when the caller's row is gone, and on
success an updated row with a fresh token.  The handler raises exactly
those `HTTPException`s, but its only wrapper clause is
`except Exception: 500` (no `except HTTPException: raise`, unlike
register/login), so both surface as 500 — and the success path fares no
better: it raises `AttributeError` at main.py 532 (`datetime.datetime` on
the name rebound by main.py 128) before `commit`, so it too answers 500
with the store unchanged.  The three conjuncts evaluate the
claimed-400, claimed-404 and claimed-success inputs. -/
theorem c4_update_profile_status_codes :
    update_user_profile 0 9 0 ⟨[⟨1, "alice", ⟨0, "pw"⟩, 0, 0⟩, ⟨2, "bob", ⟨0, "pw2"⟩, 0, 0⟩], []⟩
        1 ⟨some "bob", none⟩
      = (.failure 500 "Internal server error",
         ⟨[⟨1, "alice", ⟨0, "pw"⟩, 0, 0⟩, ⟨2, "bob", ⟨0, "pw2"⟩, 0, 0⟩], []⟩)
    ∧ update_user_profile 0 9 0 ⟨[⟨1, "alice", ⟨0, "pw"⟩, 0, 0⟩, ⟨2, "bob", ⟨0, "pw2"⟩, 0, 0⟩], []⟩
        3 ⟨some "carol", none⟩
      = (.failure 500 "Internal server error",
         ⟨[⟨1, "alice", ⟨0, "pw"⟩, 0, 0⟩, ⟨2, "bob", ⟨0, "pw2"⟩, 0, 0⟩], []⟩)
    ∧ update_user_profile 0 9 0 ⟨[⟨1, "alice", ⟨0, "pw"⟩, 0, 0⟩, ⟨2, "bob", ⟨0, "pw2"⟩, 0, 0⟩], []⟩
        1 ⟨some "carol", none⟩
      = (.failure 500 "Internal server error",
         ⟨[⟨1, "alice", ⟨0, "pw"⟩, 0, 0⟩, ⟨2, "bob", ⟨0, "pw2"⟩, 0, 0⟩], []⟩) :=
  ⟨rfl, rfl, rfl⟩

/-- Claim C5 (confirmed): `/api/messages` returns the empty list when the
database is unavailable or the query fails; otherwise the most recent
`limit` joined messages, ordered oldest-to-newest, each text decrypted or
replaced by the fixed placeholder.  Conjunct by conjunct: empty on
unavailable; empty on failure; ascending timestamps; exactly
`min limit (join size)` items; every item is a joined row with its text
decrypted or the placeholder; and every joined row left out is no newer
than any item returned. -/
theorem c5_get_messages_spec (dbFail : Bool) (key : Nat) (db : DB) (limit : Nat) :
    get_messages false dbFail key db limit = []
    ∧ get_messages true true key db limit = []
    ∧ List.Pairwise (fun a b : MessageItem => a.timestamp ≤ b.timestamp)
        (get_messages true false key db limit)
    ∧ (get_messages true false key db limit).length = min limit (joined_rows db).length
    ∧ (∀ it ∈ get_messages true false key db limit, ∃ p, p ∈ joined_rows db
         ∧ it.id = p.1.id ∧ it.fromId = p.1.sender_id ∧ it.from_username = p.2
         ∧ it.timestamp = p.1.timestamp
         ∧ it.text = (decrypt_data key p.1.text).getD PLACEHOLDER_MSG)
    ∧ (∀ p, p ∈ joined_rows db →
         (∀ it ∈ get_messages true false key db limit, it.id ≠ p.1.id) →
         ∀ it ∈ get_messages true false key db limit, p.1.timestamp ≤ it.timestamp) := by
  have hres : get_messages true false key db limit
      = (((List.insertionSort tsDesc (joined_rows db)).take limit).map
          (message_item_of key)).reverse := rfl
  have hsort : List.Pairwise tsDesc (List.insertionSort tsDesc (joined_rows db)) :=
    List.sorted_insertionSort tsDesc (joined_rows db)
  have hperm : (List.insertionSort tsDesc (joined_rows db)).Perm (joined_rows db) :=
    List.perm_insertionSort tsDesc (joined_rows db)
  refine ⟨rfl, rfl, ?_, ?_, ?_, ?_⟩
  · rw [hres]
    refine List.pairwise_reverse.mpr (List.pairwise_map.mpr ?_)
    exact (List.Pairwise.sublist
      (List.take_sublist limit (List.insertionSort tsDesc (joined_rows db))) hsort).imp
      (fun h => h)
  · rw [hres]
    rw [List.length_reverse, List.length_map, List.length_take, hperm.length_eq]
  · intro it hit
    rw [hres, List.mem_reverse] at hit
    obtain ⟨p, hp, hfp⟩ := List.mem_map.mp hit
    refine ⟨p, hperm.mem_iff.mp (List.mem_of_mem_take hp), ?_, ?_, ?_, ?_, ?_⟩ <;>
      rw [← hfp] <;> rfl
  · intro p hp hnotin it hit
    have hpL : p ∈ List.insertionSort tsDesc (joined_rows db) := hperm.mem_iff.mpr hp
    have hsplitL : (List.insertionSort tsDesc (joined_rows db)).take limit
        ++ (List.insertionSort tsDesc (joined_rows db)).drop limit
        = List.insertionSort tsDesc (joined_rows db) :=
      List.take_append_drop limit (List.insertionSort tsDesc (joined_rows db))
    have hpL2 : p ∈ (List.insertionSort tsDesc (joined_rows db)).take limit
        ++ (List.insertionSort tsDesc (joined_rows db)).drop limit := by
      rw [hsplitL]; exact hpL
    rcases List.mem_append.mp hpL2 with htk | hdr
    · have hmem : message_item_of key p ∈ get_messages true false key db limit := by
        rw [hres, List.mem_reverse]
        exact List.mem_map.mpr ⟨p, htk, rfl⟩
      exact absurd rfl (hnotin (message_item_of key p) hmem)
    · have hpw2 : List.Pairwise tsDesc
          ((List.insertionSort tsDesc (joined_rows db)).take limit
            ++ (List.insertionSort tsDesc (joined_rows db)).drop limit) := by
        rw [hsplitL]; exact hsort
      have hcross := (List.pairwise_append.mp hpw2).2.2
      rw [hres, List.mem_reverse] at hit
      obtain ⟨a, ha, hfa⟩ := List.mem_map.mp hit
      have := hcross a ha p hdr
      rw [← hfa]
      exact this

/-- Witness for C5 at a concrete store: four messages, one undecryptable,
one from an unknown sender; limit 2 keeps only the two newest joined rows
and the joined row with timestamp 10 is left out. -/
theorem c5_get_messages_witness :
    get_messages false false 0 wdb 2 = []
    ∧ get_messages true true 0 wdb 2 = []
    ∧ List.Pairwise (fun a b : MessageItem => a.timestamp ≤ b.timestamp)
        (get_messages true false 0 wdb 2)
    ∧ (get_messages true false 0 wdb 2).length = min 2 (joined_rows wdb).length
    ∧ (∀ it ∈ get_messages true false 0 wdb 2, 10 ≤ it.timestamp) := by
  have h := c5_get_messages_spec false 0 wdb 2
  refine ⟨h.1, h.2.1, h.2.2.1, h.2.2.2.1, ?_⟩
  exact h.2.2.2.2.2 (⟨1, encrypt_data 0 0 0 "one", 10, 1⟩, "alice") (by decide) (by decide)

/-- Claim C6 (code bug): the spec says `last_seen` is updated on every
successful login, message-sending WebSocket connection, and profile update.
The two update sites that exist, main.py 300 (login) and main.py 532
(profile update), evaluate `datetime.datetime.utcnow()` on the name that
main.py 128 rebound to the class, so they raise `AttributeError` before
`commit` and the requests answer 500; the WebSocket loop contains no
`last_seen` write at all.  The first two conjuncts evaluate the two
success paths (valid credentials; valid fresh username) to 500; the last
three prove that no login, profile update or WebSocket iteration ever
modifies the store, so `last_seen` is never updated. -/
theorem c6_last_seen_never_updated (key now iv : Nat) (db : DB)
    (lbody : LoginBody) (pbody : ProfileBody) (cid : Nat)
    (dbAvailable dbFail : Bool) (uid : Nat) (tf : Option String) :
    (login_user dbC6 ⟨some "alice", some "pw"⟩).1 = .failure 500 "Internal server error"
    ∧ (update_user_profile 0 9 0 dbC6 1 ⟨some "carol", none⟩).1
        = .failure 500 "Internal server error"
    ∧ (login_user db lbody).2 = db
    ∧ (update_user_profile key now iv db cid pbody).2 = db
    ∧ (ws_handle_frame dbAvailable key now iv db uid tf dbFail).db = db := by
  refine ⟨rfl, rfl, ?_, ?_, ?_⟩
  · unfold login_user login_inner
    split
    · rename_i r hr
      exfalso
      repeat' split at hr
      all_goals exact Except.noConfusion hr
    · rfl
    · rfl
  · unfold update_user_profile update_profile_inner
    split
    · rename_i r hr
      exfalso
      repeat' split at hr
      all_goals exact Except.noConfusion hr
    · rfl
  · unfold ws_handle_frame
    dsimp only
    split
    · rfl
    · split
      · rfl
      · split <;> rfl

/-- Claim C7 (confirmed): decryption inverts encryption for every string,
and two encryptions of the same plaintext drawing different random IVs are
different ciphertexts that both decrypt back to the plaintext.  Fernet is
modelled symbolically with the IV explicit; the randomness of the claim is
the hypothesis that the two draws differ. -/
theorem c7_encrypt_roundtrip (key now1 now2 iv1 iv2 : Nat) (s : String) (hiv : iv1 ≠ iv2) :
    decrypt_data key (encrypt_data key now1 iv1 s) = some s
    ∧ encrypt_data key now1 iv1 s ≠ encrypt_data key now2 iv2 s
    ∧ decrypt_data key (encrypt_data key now2 iv2 s) = some s := by
  refine ⟨?_, ?_, ?_⟩
  · simp [encrypt_data, decrypt_data]
  · intro h
    exact hiv (congrArg FernetToken.iv h)
  · simp [encrypt_data, decrypt_data]

/-- Witness for C7 at key 0, IV draws 1 and 2, plaintext "hi". -/
theorem c7_encrypt_roundtrip_witness :
    (1 : Nat) ≠ 2
    ∧ (decrypt_data 0 (encrypt_data 0 0 1 "hi") = some "hi"
       ∧ encrypt_data 0 0 1 "hi" ≠ encrypt_data 0 0 2 "hi"
       ∧ decrypt_data 0 (encrypt_data 0 0 2 "hi") = some "hi") :=
  ⟨by decide, c7_encrypt_roundtrip 0 0 0 1 2 "hi" (by decide)⟩

/-- Claim C8 (confirmed): the token payload carries `sub` = the user id as
a string, the username, `exp` = issuance time plus 30 days, and
`type = "access"`; `verify_token` accepts the token right after issuance
and returns exactly that payload, while a token signed under a different
secret, or the same token with its payload altered, verifies to `none`
(the embedding of `verify_token` is total: the source catches `PyJWTError`
and returns `None`). -/
theorem c8_token_payload_and_verification (secret now uid : Nat) (uname : String)
    (secret2 : Nat) (p2 : TokenPayload)
    (hs : secret2 ≠ secret)
    (hp : p2 ≠ (create_access_token secret now uid uname).payload) :
    (create_access_token secret now uid uname).payload.sub = toString uid
    ∧ (create_access_token secret now uid uname).payload.username = uname
    ∧ (create_access_token secret now uid uname).payload.exp = now + 30 * 86400
    ∧ (create_access_token secret now uid uname).payload.type = "access"
    ∧ verify_token secret now (create_access_token secret now uid uname)
        = some (create_access_token secret now uid uname).payload
    ∧ verify_token secret2 now (create_access_token secret now uid uname) = none
    ∧ verify_token secret now
        { create_access_token secret now uid uname with payload := p2 } = none := by
  refine ⟨rfl, rfl, rfl, rfl, ?_, ?_, ?_⟩
  · unfold verify_token create_access_token
    rw [if_pos ⟨rfl, Nat.le_add_right now _⟩]
  · unfold verify_token create_access_token
    rw [if_neg]
    intro hcond
    exact hs (congrArg Prod.fst hcond.1).symm
  · unfold verify_token create_access_token
    rw [if_neg]
    intro hcond
    exact hp (congrArg Prod.snd hcond.1).symm

/-- Witness for C8: secret 1, clock 0, user 7 "alice"; wrong secret 2 and
an arbitrary different payload both fail verification. -/
theorem c8_token_witness :
    (2 : Nat) ≠ 1
    ∧ (⟨"x", "y", 0, "z"⟩ : TokenPayload) ≠ (create_access_token 1 0 7 "alice").payload
    ∧ ((create_access_token 1 0 7 "alice").payload.sub = toString 7
       ∧ (create_access_token 1 0 7 "alice").payload.username = "alice"
       ∧ (create_access_token 1 0 7 "alice").payload.exp = 0 + 30 * 86400
       ∧ (create_access_token 1 0 7 "alice").payload.type = "access"
       ∧ verify_token 1 0 (create_access_token 1 0 7 "alice")
           = some (create_access_token 1 0 7 "alice").payload
       ∧ verify_token 2 0 (create_access_token 1 0 7 "alice") = none
       ∧ verify_token 1 0 { create_access_token 1 0 7 "alice" with
           payload := ⟨"x", "y", 0, "z"⟩ } = none) :=
  ⟨by decide, by decide,
   c8_token_payload_and_verification 1 0 7 "alice" 2 ⟨"x", "y", 0, "z"⟩ (by decide) (by decide)⟩

/-- Counterexample to claim C9 as stated: the claim says a valid profile
update carrying a non-empty email reports success and issues a new token.
At the concrete input (alice renames to carol with email "X@Y.com") the
endpoint answers 500 with the store unchanged — the result is a `failure`,
not the `ok`-with-token the claim asserts. -/
theorem c9_profile_update_reports_500 :
    update_user_profile 0 9 0 dbC6 1 ⟨some "carol", some "X@Y.com"⟩
      = (.failure 500 "Internal server error", dbC6)
    ∧ (ProfileResult.failure 500 "Internal server error"
        ≠ ProfileResult.ok "carol" (create_access_token 0 9 1 "carol")) :=
  ⟨rfl, by decide⟩

/-- Claim C9 amended (the counterexample forces replacing "reports success
and issues a new token" by "answers 500"): a valid profile update carrying
a non-empty email computes the email ciphertext for an unmapped in-memory
attribute (`models.User` maps no email column; the embedded row type has no
email field at all), then raises `AttributeError` at main.py 532 before
`commit`, so the endpoint answers 500, no token is issued, and nothing —
in particular no email value — is ever persisted: the store is returned
unchanged. -/
theorem c9_profile_email_not_persisted (key now iv : Nat) (db : DB) (cid : Nat)
    (body : ProfileBody) (u : User)
    (hlen : 3 ≤ (pyStrip (orEmpty body.username)).length)
    (htaken : db.users.find? (fun v => v.username == pyStrip (orEmpty body.username)
                && v.id != cid) = none)
    (hu : db.users.find? (fun v => v.id == cid) = some u)
    (_hemail : pyLower (pyStrip (orEmpty body.email)) ≠ "") :
    update_user_profile key now iv db cid body
      = (.failure 500 "Internal server error", db) := by
  have hne : pyStrip (orEmpty body.username) ≠ "" := by
    intro h
    rw [h] at hlen
    exact absurd hlen (by decide)
  unfold update_user_profile update_profile_inner
  rw [if_neg hne, if_neg (by omega), htaken, hu]

/-- Witness for the amended C9: bob (id 2) asks to rename to carol with
email "A@B.org"; the request satisfies every hypothesis of the theorem and
answers 500 with the store unchanged. -/
theorem c9_profile_email_witness :
    3 ≤ (pyStrip (orEmpty (some "carol"))).length
    ∧ pyLower (pyStrip (orEmpty (some "A@B.org"))) ≠ ""
    ∧ update_user_profile 7 9 0 ⟨[wBob], []⟩ 2 ⟨some "carol", some "A@B.org"⟩
      = (.failure 500 "Internal server error", ⟨[wBob], []⟩) :=
  ⟨by decide, by decide,
   c9_profile_email_not_persisted 7 9 0 ⟨[wBob], []⟩ 2 ⟨some "carol", some "A@B.org"⟩ wBob
     (by decide) rfl rfl (by decide)⟩

/-- Claim C10 (code bug): the claim (matching the evident purpose of the
emulation branch, main.py 352-363) says that with the database unavailable
each frame is still broadcast with the plaintext and a fractional-timestamp
`message_id`.  In fact building that frame evaluates
`datetime.datetime.utcnow()` (main.py 359) on the name rebound by main.py
128: `AttributeError`, raised outside the inner `try` where only
`WebSocketDisconnect` is handled, so nothing is sent, nothing is stored,
and the connection's handler dies.  The theorem evaluates the branch for
every input: no sends, store unchanged, crashed. -/
theorem c10_ws_unavailable_crashes (key now iv : Nat) (db : DB) (user_id : Nat)
    (textField : Option String) (dbFail : Bool) :
    ws_handle_frame false key now iv db user_id textField dbFail
      = { db := db, sends := [], crashed := true } :=
  rfl

end HiMessenger
